import Mathlib

/-!
Verification of the secrets form layer of the repository
(`netbox/secrets/forms.py`): the RSA key validator `validate_rsa_key`,
the `SecretForm` cleaning logic (plaintext matching, uniqueness on
(device, role, name), required plaintext on creation), and the CSV
bulk-import form `SecretCSVForm`.

Python strings are modelled as Lean `String`; the external PyCryptodome
calls (`RSA.importKey`, `PKCS1_OAEP.new`) are modelled abstractly by a
parameter function giving the import outcome for each blob and by a flag
on the parsed key recording whether OAEP construction throws. Django
form machinery is modelled only as far as the source under scrutiny uses
it: `cleaned_data` is a record of optional field values (a field that
failed its own validation is absent, as in Django), and indexing an
absent key yields the Python `KeyError` outcome.
-/

/-- The observable interface of a parsed RSA key object as the source
uses it: whether `key.has_private()` is true, and whether the external
call `PKCS1_OAEP.new(key)` raises. -/
structure RSAKey where
  has_private : Bool
  oaepNewThrows : Bool
deriving DecidableEq

/-- Outcome of the model of the external call `RSA.importKey(key)`:
either a parsed key, a `ValueError` (malformed encoding), or some other
exception carrying a message. -/
inductive ImportResult where
  | ok (k : RSAKey)
  | valueError
  | otherError (msg : String)
deriving DecidableEq

/-- The distinct `ValidationError` outcomes that `validate_rsa_key` can
raise, one constructor per `raise` site in the source. -/
inductive RsaValidationError where
  | opensshFormat
  | invalidFormat
  | invalidKeyDetected (msg : String)
  | publicWherePrivate
  | privateWherePublic
  | oaepIncompatible
deriving DecidableEq

/-- The message text attached to each `ValidationError` in the source. -/
def RsaValidationError.message : RsaValidationError → String
  | .opensshFormat => "OpenSSH line format is not supported. Please ensure that your public is in PEM (base64) format."
  | .invalidFormat => "Invalid RSA key. Please ensure that your key is in PEM (base64) format."
  | .invalidKeyDetected m => "Invalid key detected: " ++ m
  | .publicWherePrivate => "This looks like a public key. Please provide your private RSA key."
  | .privateWherePublic => "This looks like a private key. Please provide your public RSA key."
  | .oaepIncompatible => "Error validating RSA key. Please ensure that your key supports PKCS#1 OAEP."

/-- Python `s.startswith(pre)` on the character sequences of the two
strings. -/
def pyStartsWith (s pre : String) : Bool :=
  pre.data.isPrefixOf s.data

/-- `validate_rsa_key(key, is_secret)` from the source, with the
external `RSA.importKey` supplied as the parameter `importKey`.
Mirrors the source order: the OpenSSH line check first, then the import
with its two except clauses, then the private/public kind checks, then
the `PKCS1_OAEP.new` construction check. -/
def validate_rsa_key (importKey : String → ImportResult) (key : String)
    (is_secret : Bool) : Except RsaValidationError Unit :=
  if pyStartsWith key "ssh-rsa " then
    Except.error RsaValidationError.opensshFormat
  else
    match importKey key with
    | ImportResult.valueError => Except.error RsaValidationError.invalidFormat
    | ImportResult.otherError m => Except.error (RsaValidationError.invalidKeyDetected m)
    | ImportResult.ok k =>
      if is_secret && !k.has_private then
        Except.error RsaValidationError.publicWherePrivate
      else if !is_secret && k.has_private then
        Except.error RsaValidationError.privateWherePublic
      else if k.oaepNewThrows then
        Except.error RsaValidationError.oaepIncompatible
      else
        Except.ok ()

/-- A persisted Secret row as the uniqueness query sees it: primary key
plus the (device, role, name) triple. Devices and roles are identified
by their ids. -/
structure SecretRecord where
  pk : Nat
  device : Nat
  role : Nat
  name : String
deriving DecidableEq

/-- The `cleaned_data` dict of a bound `SecretForm` after field-level
validation: a field that failed its own validation is absent (`none`),
exactly as Django omits it from `cleaned_data`. -/
structure CleanedData where
  plaintext : Option String
  plaintext2 : Option String
  device : Option Nat
  role : Option Nat
  name : Option String
deriving DecidableEq

/-- Outcomes of `SecretForm.clean`: a Django `ValidationError` (with the
field it is attached to, or `none` for a non-field error) or a Python
`KeyError` escaping from an unguarded `cleaned_data[...]` access. -/
inductive CleanError where
  | validationError (field : Option String) (msg : String)
  | keyError (k : String)
deriving DecidableEq

/-- Message of the plaintext mismatch `ValidationError` in
`SecretForm.clean`. -/
def plaintextMismatchMsg : String :=
  "The two given plaintext values do not match. Please check your input."

/-- Message of the uniqueness `ValidationError` in `SecretForm.clean`. -/
def uniquenessMsg : String :=
  "Each secret assigned to a device must have a unique combination of role and name"

/-- `SecretForm.clean` from the source. `db` is the set of persisted
`Secret` rows and `instancePk` the primary key of `self.instance`
(`none` when the form creates a new record). Each `cleaned_data[...]`
access is modelled by a match whose absent branch is the Python
`KeyError`, in the exact evaluation order of the source: `plaintext`,
`plaintext2`, then — inside the uniqueness queryset call — `device`,
`role`, `name`. `.exclude(pk=self.instance.pk)` keeps exactly the rows
whose pk differs from `instancePk` (for `instancePk = none` it keeps
every persisted row, as the SQL `NOT (pk IS NULL)` does). -/
def SecretForm.clean (db : List SecretRecord) (instancePk : Option Nat)
    (cd : CleanedData) : Except CleanError Unit :=
  match cd.plaintext with
  | none => Except.error (CleanError.keyError "plaintext")
  | some pt =>
    match cd.plaintext2 with
    | none => Except.error (CleanError.keyError "plaintext2")
    | some pt2 =>
      if pt ≠ pt2 then
        Except.error (CleanError.validationError (some "plaintext2") plaintextMismatchMsg)
      else
        match cd.device with
        | none => Except.error (CleanError.keyError "device")
        | some dev =>
          match cd.role with
          | none => Except.error (CleanError.keyError "role")
          | some rl =>
            match cd.name with
            | none => Except.error (CleanError.keyError "name")
            | some nm =>
              if db.any fun s =>
                  s.device == dev && s.role == rl && s.name == nm &&
                    some s.pk != instancePk then
                Except.error (CleanError.validationError none uniquenessMsg)
              else
                Except.ok ()

/-- Python truthiness of `self.instance.pk` (`None` and `0` are falsy). -/
def pyTruthy : Option Nat → Bool
  | none => false
  | some n => n != 0

/-- Whether the `plaintext` field of a bound `SecretForm` is required:
declared with `required=False`, switched to `True` by `__init__` when
`not self.instance.pk`. -/
def SecretForm.plaintextRequired (instancePk : Option Nat) : Bool :=
  !(pyTruthy instancePk)

/-- Field-level errors raised by a Django `CharField`. -/
inductive FieldError where
  | required
  | maxLength
deriving DecidableEq

/-- Django `CharField` cleaning as the source configures it: an empty
value fails when the field is required (and skips the validators
otherwise), and a non-empty value fails when a `max_length` is set and
the value is longer. -/
def charFieldClean (requiredFlag : Bool) (maxLen : Option Nat)
    (value : String) : Except FieldError String :=
  if value = "" then
    if requiredFlag then Except.error FieldError.required else Except.ok value
  else
    match maxLen with
    | some m => if value.length > m then Except.error FieldError.maxLength else Except.ok value
    | none => Except.ok value

/-- Modelled from the spec: the fixed maximum plaintext length imported
from `secrets.constants` (`SECRET_PLAINTEXT_MAX_LENGTH`), a module not
among the sources; the spec only states that the bound is a fixed
maximum, so a concrete representative value is used. -/
def SECRET_PLAINTEXT_MAX_LENGTH : Nat := 65535

/-- Field-level cleaning of `SecretForm.plaintext`: declared with
`max_length=SECRET_PLAINTEXT_MAX_LENGTH` and the requiredness set by
`__init__` from the bound instance. -/
def SecretForm.plaintextFieldClean (instancePk : Option Nat)
    (value : String) : Except FieldError String :=
  charFieldClean (SecretForm.plaintextRequired instancePk)
    (some SECRET_PLAINTEXT_MAX_LENGTH) value

/-- Field-level cleaning of `SecretCSVForm.plaintext`: a plain
`forms.CharField(help_text=...)`, so required (the Django default) and
with no `max_length`. -/
def SecretCSVForm.plaintextFieldClean (value : String) : Except FieldError String :=
  charFieldClean true none value

/-- Modelled from the spec: the uniqueness validation applied when a
CSV-imported Secret row is saved. The `Secret` model declaring the
(device, role, name) unique constraint and the `CustomFieldModelCSVForm`
machinery that validates it are not among the sources; the spec states
that the core uniqueness rule on (device, role, name) applies
identically to bulk-created records, and a CSV row is always a new
record (no primary key to exclude). -/
def secretCSVSaveCheck (db : List SecretRecord) (dev rl : Nat)
    (nm : String) : Except CleanError Unit :=
  if db.any fun s => s.device == dev && s.role == rl && s.name == nm then
    Except.error (CleanError.validationError none uniquenessMsg)
  else
    Except.ok ()

/-- A concrete model of `RSA.importKey` used by the witnesses: one blob
parses to a private OAEP-compatible key, one to the matching public key,
one to a private key whose OAEP construction throws, one raises a
non-ValueError exception, and everything else raises `ValueError`. -/
def demoImport : String → ImportResult := fun s =>
  if s = "PRIVKEY" then ImportResult.ok ⟨true, false⟩
  else if s = "PUBKEY" then ImportResult.ok ⟨false, false⟩
  else if s = "SMALLPRIV" then ImportResult.ok ⟨true, true⟩
  else if s = "WEIRD" then ImportResult.otherError "boom"
  else ImportResult.valueError

/-- One million characters would also do; one over the bound is enough
to exceed `SECRET_PLAINTEXT_MAX_LENGTH`. -/
def bigPlaintext : String :=
  String.mk (List.replicate (SECRET_PLAINTEXT_MAX_LENGTH + 1) 'a')

theorem bigPlaintext_length :
    bigPlaintext.length = SECRET_PLAINTEXT_MAX_LENGTH + 1 := by
  simp [bigPlaintext, String.length]

/-- C2: if the blob parses and `is_secret` demands a private key but the
parsed key has no private components, validation fails with the
public-where-private error; if `is_secret` is false and the key has
private components, it fails with the private-where-public error; and a
private OAEP-compatible key passes as a secret key while a public
OAEP-compatible key passes as a public key. -/
theorem validate_rsa_key_kind (importKey : String → ImportResult)
    (key : String) (k : RSAKey)
    (hs : pyStartsWith key "ssh-rsa " = false)
    (hi : importKey key = ImportResult.ok k) :
    (k.has_private = false →
      validate_rsa_key importKey key true =
        Except.error RsaValidationError.publicWherePrivate) ∧
    (k.has_private = true →
      validate_rsa_key importKey key false =
        Except.error RsaValidationError.privateWherePublic) ∧
    (k.has_private = true → k.oaepNewThrows = false →
      validate_rsa_key importKey key true = Except.ok ()) ∧
    (k.has_private = false → k.oaepNewThrows = false →
      validate_rsa_key importKey key false = Except.ok ()) := by
  refine ⟨?_, ?_, ?_, ?_⟩ <;>
    intro h <;>
    simp [validate_rsa_key, hs, hi, h]

/-- C2 witness: the concrete private blob validates as private, the
concrete public blob validates as public, and each fails with the
matching kind error when the expectations are swapped. -/
theorem validate_rsa_key_kind_witness :
    validate_rsa_key demoImport "PRIVKEY" true = Except.ok () ∧
    validate_rsa_key demoImport "PUBKEY" false = Except.ok () ∧
    validate_rsa_key demoImport "PUBKEY" true =
      Except.error RsaValidationError.publicWherePrivate ∧
    validate_rsa_key demoImport "PRIVKEY" false =
      Except.error RsaValidationError.privateWherePublic := by
  refine ⟨?_, ?_, ?_, ?_⟩
  · exact (validate_rsa_key_kind demoImport "PRIVKEY" ⟨true, false⟩
      (by decide) (by decide)).2.2.1 rfl rfl
  · exact (validate_rsa_key_kind demoImport "PUBKEY" ⟨false, false⟩
      (by decide) (by decide)).2.2.2 rfl rfl
  · exact (validate_rsa_key_kind demoImport "PUBKEY" ⟨false, false⟩
      (by decide) (by decide)).1 rfl
  · exact (validate_rsa_key_kind demoImport "PRIVKEY" ⟨true, false⟩
      (by decide) (by decide)).2.1 rfl

/-- C5: for a parsed key of the expected kind, validation fails with the
OAEP incompatibility error exactly when the `PKCS1_OAEP.new`
construction throws, and succeeds otherwise. -/
theorem validate_rsa_key_oaep (importKey : String → ImportResult)
    (key : String) (k : RSAKey) (is_secret : Bool)
    (hs : pyStartsWith key "ssh-rsa " = false)
    (hi : importKey key = ImportResult.ok k)
    (hk : k.has_private = is_secret) :
    validate_rsa_key importKey key is_secret =
      if k.oaepNewThrows then Except.error RsaValidationError.oaepIncompatible
      else Except.ok () := by
  cases is_secret <;> simp [validate_rsa_key, hs, hi, hk]

/-- C5 witness: the undersized private key (whose OAEP construction
throws) is rejected with the incompatibility error, and the well-sized
private key is accepted. -/
theorem validate_rsa_key_oaep_witness :
    validate_rsa_key demoImport "SMALLPRIV" true =
      Except.error RsaValidationError.oaepIncompatible ∧
    validate_rsa_key demoImport "PRIVKEY" true = Except.ok () := by
  constructor
  · have h := validate_rsa_key_oaep demoImport "SMALLPRIV" ⟨true, true⟩ true
      (by decide) (by decide) rfl
    simpa using h
  · have h := validate_rsa_key_oaep demoImport "PRIVKEY" ⟨true, false⟩ true
      (by decide) (by decide) rfl
    simpa using h

/-- C6: a blob beginning with the OpenSSH line marker is rejected with
the dedicated OpenSSH error, which differs (as constructor and as
message text) from the generic malformed-key errors, and the outcome
does not depend on the import function at all — no parsing happens. -/
theorem validate_rsa_key_openssh (importKey : String → ImportResult)
    (key : String) (is_secret : Bool)
    (h : pyStartsWith key "ssh-rsa " = true) :
    validate_rsa_key importKey key is_secret =
      Except.error RsaValidationError.opensshFormat ∧
    (∀ g : String → ImportResult,
      validate_rsa_key g key is_secret =
        Except.error RsaValidationError.opensshFormat) ∧
    RsaValidationError.opensshFormat ≠ RsaValidationError.invalidFormat ∧
    (∀ m, RsaValidationError.opensshFormat ≠ RsaValidationError.invalidKeyDetected m) ∧
    RsaValidationError.opensshFormat.message ≠
      RsaValidationError.invalidFormat.message := by
  refine ⟨by simp [validate_rsa_key, h], fun g => by simp [validate_rsa_key, h],
    by decide, fun m => by simp, by decide⟩

/-- C6 witness: a concrete OpenSSH-format line is rejected with the
OpenSSH-specific error. -/
theorem validate_rsa_key_openssh_witness :
    validate_rsa_key demoImport "ssh-rsa AAAAB3Nza" true =
      Except.error RsaValidationError.opensshFormat :=
  (validate_rsa_key_openssh demoImport "ssh-rsa AAAAB3Nza" true (by decide)).1

/-- C7: a blob that fails to import yields exactly the format errors
(`ValueError` gives the invalid-format message, any other exception the
invalid-key-detected message); a blob that imports never yields a format
error; a parsed key of the wrong kind yields exactly the kind errors;
and the canonical format error message differs from both kind error
messages. -/
theorem validate_rsa_key_error_separation (importKey : String → ImportResult)
    (key : String) (is_secret : Bool)
    (hs : pyStartsWith key "ssh-rsa " = false) :
    (importKey key = ImportResult.valueError →
      validate_rsa_key importKey key is_secret =
        Except.error RsaValidationError.invalidFormat) ∧
    (∀ m, importKey key = ImportResult.otherError m →
      validate_rsa_key importKey key is_secret =
        Except.error (RsaValidationError.invalidKeyDetected m)) ∧
    (∀ k, importKey key = ImportResult.ok k →
      validate_rsa_key importKey key is_secret ≠
        Except.error RsaValidationError.invalidFormat ∧
      (∀ m, validate_rsa_key importKey key is_secret ≠
        Except.error (RsaValidationError.invalidKeyDetected m)) ∧
      (is_secret = true → k.has_private = false →
        validate_rsa_key importKey key is_secret =
          Except.error RsaValidationError.publicWherePrivate) ∧
      (is_secret = false → k.has_private = true →
        validate_rsa_key importKey key is_secret =
          Except.error RsaValidationError.privateWherePublic)) ∧
    (RsaValidationError.invalidFormat.message ≠
        RsaValidationError.publicWherePrivate.message ∧
      RsaValidationError.invalidFormat.message ≠
        RsaValidationError.privateWherePublic.message) := by
  refine ⟨?_, ?_, ?_, by decide, by decide⟩
  · intro h
    simp [validate_rsa_key, hs, h]
  · intro m h
    simp [validate_rsa_key, hs, h]
  · intro k hk
    refine ⟨?_, ?_, ?_, ?_⟩
    · simp only [validate_rsa_key, hs, hk]
      split_ifs <;> simp
    · intro m
      simp only [validate_rsa_key, hs, hk]
      split_ifs <;> simp
    · intro h1 h2
      simp [validate_rsa_key, hs, hk, h1, h2]
    · intro h1 h2
      simp [validate_rsa_key, hs, hk, h1, h2]

/-- C7 witness: a `ValueError` blob gives the invalid-format error, a
blob raising another exception gives the invalid-key-detected error, and
a parsed public key under a private expectation gives the kind error,
not a format error. -/
theorem validate_rsa_key_error_separation_witness :
    validate_rsa_key demoImport "NOTAKEY" true =
      Except.error RsaValidationError.invalidFormat ∧
    validate_rsa_key demoImport "WEIRD" true =
      Except.error (RsaValidationError.invalidKeyDetected "boom") ∧
    validate_rsa_key demoImport "PUBKEY" true ≠
      Except.error RsaValidationError.invalidFormat := by
  refine ⟨?_, ?_, ?_⟩
  · exact (validate_rsa_key_error_separation demoImport "NOTAKEY" true
      (by decide)).1 (by decide)
  · exact (validate_rsa_key_error_separation demoImport "WEIRD" true
      (by decide)).2.1 "boom" (by decide)
  · exact ((validate_rsa_key_error_separation demoImport "PUBKEY" true
      (by decide)).2.2.1 ⟨false, false⟩ (by decide)).1

/-- C1: with both plaintexts supplied and matching, `SecretForm.clean`
fails with the uniqueness `ValidationError` exactly when some persisted
record carries the same (device, role, name) triple under a different
primary key than the bound instance; in particular, when every record
with that triple is the bound instance itself, the clean succeeds. -/
theorem secretForm_clean_uniqueness (db : List SecretRecord)
    (ipk : Option Nat) (dev rl : Nat) (nm p : String) :
    ((∃ s ∈ db, s.device = dev ∧ s.role = rl ∧ s.name = nm ∧ some s.pk ≠ ipk) →
      SecretForm.clean db ipk ⟨some p, some p, some dev, some rl, some nm⟩ =
        Except.error (CleanError.validationError none uniquenessMsg)) ∧
    ((∀ s ∈ db, s.device = dev → s.role = rl → s.name = nm → some s.pk = ipk) →
      SecretForm.clean db ipk ⟨some p, some p, some dev, some rl, some nm⟩ =
        Except.ok ()) := by
  constructor
  · rintro ⟨s, hmem, h1, h2, h3, h4⟩
    have hany : (db.any fun s =>
        s.device == dev && s.role == rl && s.name == nm && some s.pk != ipk) = true := by
      rw [List.any_eq_true]
      exact ⟨s, hmem, by simp [h1, h2, h3, h4]⟩
    simp [SecretForm.clean, hany]
  · intro hall
    have hany : (db.any fun s =>
        s.device == dev && s.role == rl && s.name == nm && some s.pk != ipk) = false := by
      rw [Bool.eq_false_iff]
      intro hx
      rw [List.any_eq_true] at hx
      obtain ⟨s, hmem, hpred⟩ := hx
      simp only [Bool.and_eq_true, beq_iff_eq, bne_iff_ne, ne_eq] at hpred
      exact hpred.2 (hall s hmem hpred.1.1.1 hpred.1.1.2 hpred.1.2)
    simp [SecretForm.clean, hany]

/-- C1 witness: a new-record clean (no primary key) collides with a
persisted record holding the same triple and fails; an update bound to
that very record (pk 1) with the same triple succeeds. -/
theorem secretForm_clean_uniqueness_witness :
    SecretForm.clean [⟨1, 5, 7, "admin"⟩] none
      ⟨some "p", some "p", some 5, some 7, some "admin"⟩ =
        Except.error (CleanError.validationError none uniquenessMsg) ∧
    SecretForm.clean [⟨1, 5, 7, "admin"⟩] (some 1)
      ⟨some "p", some "p", some 5, some 7, some "admin"⟩ = Except.ok () := by
  constructor
  · exact (secretForm_clean_uniqueness [⟨1, 5, 7, "admin"⟩] none 5 7 "admin" "p").1
      ⟨⟨1, 5, 7, "admin"⟩, by simp, rfl, rfl, rfl, by simp⟩
  · exact (secretForm_clean_uniqueness [⟨1, 5, 7, "admin"⟩] (some 1) 5 7 "admin" "p").2
      (by intro s hmem h1 h2 h3; simp at hmem; simp [hmem])

/-- C9: whenever both plaintext values are present and differ,
`SecretForm.clean` fails with the mismatch `ValidationError` attached to
the `plaintext2` field; and the clean can only succeed when the two
values are equal. -/
theorem secretForm_clean_plaintext_match (db : List SecretRecord)
    (ipk : Option Nat) (pt pt2 : String) (d r : Option Nat)
    (n : Option String) :
    (pt ≠ pt2 →
      SecretForm.clean db ipk ⟨some pt, some pt2, d, r, n⟩ =
        Except.error (CleanError.validationError (some "plaintext2")
          plaintextMismatchMsg)) ∧
    (SecretForm.clean db ipk ⟨some pt, some pt2, d, r, n⟩ = Except.ok () →
      pt = pt2) := by
  constructor
  · intro h
    simp [SecretForm.clean, h]
  · intro h
    by_contra hne
    simp [SecretForm.clean, hne] at h

/-- C9 witness: differing concrete plaintexts produce the mismatch error
on the `plaintext2` field. -/
theorem secretForm_clean_plaintext_match_witness :
    SecretForm.clean [] none ⟨some "x", some "y", some 1, some 2, some "n"⟩ =
      Except.error (CleanError.validationError (some "plaintext2")
        plaintextMismatchMsg) :=
  (secretForm_clean_plaintext_match [] none "x" "y" (some 1) (some 2)
    (some "n")).1 (by decide)

/-- C8: a form bound to a new record (no primary key) has a required
plaintext field and an empty plaintext fails its field validation, while
a non-empty plaintext within the length bound passes; a form bound to a
persisted record (positive primary key) has an optional plaintext field
and an empty plaintext passes. -/
theorem secretForm_plaintext_required (p : Nat) (hp : 0 < p) (v : String) :
    SecretForm.plaintextRequired none = true ∧
    SecretForm.plaintextFieldClean none "" = Except.error FieldError.required ∧
    (v ≠ "" → v.length ≤ SECRET_PLAINTEXT_MAX_LENGTH →
      SecretForm.plaintextFieldClean none v = Except.ok v) ∧
    SecretForm.plaintextRequired (some p) = false ∧
    SecretForm.plaintextFieldClean (some p) "" = Except.ok "" := by
  have hp0 : p ≠ 0 := Nat.pos_iff_ne_zero.mp hp
  refine ⟨rfl, rfl, ?_, ?_, ?_⟩
  · intro hv hlen
    simp [SecretForm.plaintextFieldClean, charFieldClean, hv,
      Nat.not_lt.mpr hlen]
  · simp [SecretForm.plaintextRequired, pyTruthy, hp0]
  · simp [SecretForm.plaintextFieldClean, charFieldClean,
      SecretForm.plaintextRequired, pyTruthy, hp0]

/-- C8 witness: at primary key 1 and plaintext "s", the requiredness
flags and the field cleaning outcomes are as stated. -/
theorem secretForm_plaintext_required_witness :
    SecretForm.plaintextFieldClean none "" = Except.error FieldError.required ∧
    SecretForm.plaintextFieldClean none "s" = Except.ok "s" ∧
    SecretForm.plaintextFieldClean (some 1) "" = Except.ok "" := by
  have h := secretForm_plaintext_required 1 (by decide) "s"
  exact ⟨h.2.1, h.2.2.1 (by decide) (by decide), h.2.2.2.2⟩

/-- C4 counterexample: a plaintext one character longer than
`SECRET_PLAINTEXT_MAX_LENGTH` is accepted unchanged by the CSV import
plaintext field, because `SecretCSVForm.plaintext` carries no
`max_length` — the bulk path does not validate the bound. -/
theorem csv_plaintext_unbounded_counterexample :
    SECRET_PLAINTEXT_MAX_LENGTH < bigPlaintext.length ∧
    SecretCSVForm.plaintextFieldClean bigPlaintext = Except.ok bigPlaintext := by
  constructor
  · rw [bigPlaintext_length]
    omega
  · have hne : bigPlaintext ≠ "" := by
      intro h
      have := congrArg String.length h
      rw [bigPlaintext_length] at this
      simp at this
    simp [SecretCSVForm.plaintextFieldClean, charFieldClean, hne]

/-- C4 amended: only the single-record form validates the plaintext
length against `SECRET_PLAINTEXT_MAX_LENGTH` (rejecting any longer
value); the bulk CSV import plaintext field has no `max_length` and
accepts a value of any length. -/
theorem plaintext_length_bound (ipk : Option Nat) (v : String)
    (h : SECRET_PLAINTEXT_MAX_LENGTH < v.length) :
    SecretForm.plaintextFieldClean ipk v = Except.error FieldError.maxLength ∧
    SecretCSVForm.plaintextFieldClean v = Except.ok v := by
  have hne : v ≠ "" := by
    intro he
    rw [he] at h
    simp at h
  constructor
  · simp [SecretForm.plaintextFieldClean, charFieldClean, hne, h]
  · simp [SecretCSVForm.plaintextFieldClean, charFieldClean, hne]

/-- C4 amended witness: at the concrete over-long plaintext, the single
form rejects with the max-length error while the CSV field accepts. -/
theorem plaintext_length_bound_witness :
    SecretForm.plaintextFieldClean none bigPlaintext =
      Except.error FieldError.maxLength ∧
    SecretCSVForm.plaintextFieldClean bigPlaintext = Except.ok bigPlaintext :=
  plaintext_length_bound none bigPlaintext
    (by rw [bigPlaintext_length]; omega)

/-- C10 counterexample: a submission whose `device` is missing from
`cleaned_data` but whose two plaintexts are present and differ makes
`SecretForm.clean` raise the mismatch `ValidationError`, not a
`KeyError` — the mismatch check runs before the unguarded `device`
access is reached. -/
theorem clean_keyerror_counterexample :
    (CleanedData.device ⟨some "a", some "b", none, none, none⟩ = none) ∧
    SecretForm.clean [] none ⟨some "a", some "b", none, none, none⟩ =
      Except.error (CleanError.validationError (some "plaintext2")
        plaintextMismatchMsg) ∧
    ∀ k, SecretForm.clean [] none ⟨some "a", some "b", none, none, none⟩ ≠
      Except.error (CleanError.keyError k) := by
  refine ⟨rfl, by simp [SecretForm.clean], ?_⟩
  intro k
  simp [SecretForm.clean]

/-- C10 amended: `SecretForm.clean` indexes `cleaned_data` unguarded, so
whenever one of the five fields is absent and the two plaintexts (when
both present) do not differ, the clean raises a `KeyError` instead of
returning a validation error; when both plaintexts are present and
differ, the mismatch `ValidationError` fires first even if device, role
or name is absent. -/
theorem clean_keyerror_on_missing (db : List SecretRecord)
    (ipk : Option Nat) (cd : CleanedData)
    (hmiss : cd.plaintext = none ∨ cd.plaintext2 = none ∨
      cd.device = none ∨ cd.role = none ∨ cd.name = none)
    (hmatch : ∀ p p2, cd.plaintext = some p → cd.plaintext2 = some p2 → p = p2) :
    ∃ k, SecretForm.clean db ipk cd = Except.error (CleanError.keyError k) := by
  obtain ⟨pt, pt2, d, r, n⟩ := cd
  cases pt with
  | none => exact ⟨"plaintext", by simp [SecretForm.clean]⟩
  | some p =>
    cases pt2 with
    | none => exact ⟨"plaintext2", by simp [SecretForm.clean]⟩
    | some p2 =>
      have hpp : p = p2 := hmatch p p2 rfl rfl
      subst hpp
      cases d with
      | none => exact ⟨"device", by simp [SecretForm.clean]⟩
      | some dv =>
        cases r with
        | none => exact ⟨"role", by simp [SecretForm.clean]⟩
        | some rv =>
          cases n with
          | none => exact ⟨"name", by simp [SecretForm.clean]⟩
          | some nv => simp at hmiss

/-- C10 amended witness: with only `plaintext2` present, the clean
raises a `KeyError` (on the first missing key, `plaintext`). -/
theorem clean_keyerror_on_missing_witness :
    ∃ k, SecretForm.clean [] none ⟨none, some "x", none, none, none⟩ =
      Except.error (CleanError.keyError k) :=
  clean_keyerror_on_missing [] none ⟨none, some "x", none, none, none⟩
    (Or.inl rfl) (fun _ _ hp _ => Option.noConfusion hp)

/-- C3: the spec-modelled uniqueness check applied to a CSV-imported row
coincides exactly with the single-record form clean for a new record
with matching plaintexts on the same (device, role, name); in
particular, a CSV row duplicating a persisted record triple fails with
the same uniqueness `ValidationError`. -/
theorem csv_uniqueness_same_rule (db : List SecretRecord) (dev rl : Nat)
    (nm p : String) :
    secretCSVSaveCheck db dev rl nm =
      SecretForm.clean db none ⟨some p, some p, some dev, some rl, some nm⟩ ∧
    ((∃ s ∈ db, s.device = dev ∧ s.role = rl ∧ s.name = nm) →
      secretCSVSaveCheck db dev rl nm =
        Except.error (CleanError.validationError none uniquenessMsg)) := by
  constructor
  · have hpk : ∀ x : Nat, (some x != (none : Option Nat)) = true := fun _ => rfl
    simp [secretCSVSaveCheck, SecretForm.clean, hpk]
  · rintro ⟨s, hmem, h1, h2, h3⟩
    have hany : (db.any fun s =>
        s.device == dev && s.role == rl && s.name == nm) = true := by
      rw [List.any_eq_true]
      exact ⟨s, hmem, by simp [h1, h2, h3]⟩
    simp [secretCSVSaveCheck, hany]

/-- C3 witness: a concrete CSV row duplicating the persisted triple
(5, 7, "admin") fails with the uniqueness error, matching the form
clean outcome. -/
theorem csv_uniqueness_same_rule_witness :
    secretCSVSaveCheck [⟨1, 5, 7, "admin"⟩] 5 7 "admin" =
      Except.error (CleanError.validationError none uniquenessMsg) ∧
    secretCSVSaveCheck [⟨1, 5, 7, "admin"⟩] 5 7 "admin" =
      SecretForm.clean [⟨1, 5, 7, "admin"⟩] none
        ⟨some "q", some "q", some 5, some 7, some "admin"⟩ := by
  constructor
  · exact (csv_uniqueness_same_rule [⟨1, 5, 7, "admin"⟩] 5 7 "admin" "q").2
      ⟨⟨1, 5, 7, "admin"⟩, by simp, rfl, rfl, rfl⟩
  · exact (csv_uniqueness_same_rule [⟨1, 5, 7, "admin"⟩] 5 7 "admin" "q").1
